import Mathlib

/-!
# healthcheck-demo: the memory probe and the health aggregation

Shallow embedding of `main.go`.

* `bToMb`, `memoryCheck` and the registrations of `main` are translated from
  the source.
* Go's `uint64` is a natural number below `2 ^ 64`.
* A `healthcheck.Check` is a Go `func() error`; the closure returned by
  `memoryCheck` reads `runtime.MemStats.Alloc`, so a check is embedded as a
  function of the readings of the Go runtime, and `error` is `Option String`
  (`none` is `nil`, `some msg` an error whose `Error()` text is `msg`).
-/

namespace HealthcheckDemo

/-! ## Machine integers -/

/-- Number of values of a Go `uint64`. -/
def uint64Size : Nat := 2 ^ 64

/-- Go's `/` on two `uint64` operands, as the machine executes it: a zero
divisor is a run-time panic (`none`), otherwise the quotient is kept in 64 bits. -/
def divUint64 (a b : Nat) : Option Nat :=
  if b = 0 then none else some (a / b % uint64Size)

/-- Body of `bToMb`, `b / 1024 / 1024`, executed with the machine division. -/
def bToMbExec (b : Nat) : Option Nat :=
  (divUint64 b 1024).bind fun q => divUint64 q 1024

/-- Value of `func bToMb(b uint64) uint64 { return b / 1024 / 1024 }`. -/
def bToMb (b : Nat) : Nat :=
  b / 1024 / 1024

/-! ## The Go runtime as seen by the probes -/

/-- Readings the probes take from the Go runtime and the resolver. -/
structure Runtime where
  /-- Field `Alloc` of `runtime.MemStats` after `runtime.ReadMemStats`. -/
  Alloc : Nat
  /-- Result of `runtime.NumGoroutine()`. -/
  NumGoroutine : Nat
  /-- Outcome of resolving a host name within a timeout (a `time.Duration`,
  in nanoseconds): `none` when it resolves, `some msg` for the resolution failure. -/
  LookupHost : String → Nat → Option String

/-- Type `healthcheck.Check`, a `func() error`. -/
abbrev Check := Runtime → Option String

/-- Text produced by `fmt.Errorf("too large memory allocation (%d)", n)`. -/
def memoryErrorText (n : Nat) : String :=
  "too large memory allocation (" ++ Nat.repr n ++ ")"

/-- Closure returned by `memoryCheck()`. -/
def memoryCheck : Check := fun count =>
  if bToMb count.Alloc > 200 then
    some (memoryErrorText (bToMb count.Alloc))
  else
    none

/-! ## Health aggregation

`main` builds its handler with `healthcheck.NewHandler`, `AddLivenessCheck`,
`AddReadinessCheck`, `healthcheck.GoroutineCountCheck` and
`healthcheck.DNSResolveCheck`.  Their bodies belong to the imported package
`github.com/heptiolabs/healthcheck` and are not part of `main.go`; the
definitions below follow sections 3 and 4 of the specification.  They cover
the registry and the evaluation of the probes of one kind.  The HTTP side of
the handler, that is which probe sets an endpoint runs and the status code it
answers with, is not modelled: `main.go` says nothing about it.
-/

/-- Modelled from the spec: the two probe kinds of section 3; the handler
package that distinguishes them is missing from the source. -/
inductive Kind where
  | Liveness
  | Readiness
  deriving DecidableEq, Repr

/-- Modelled from the spec: one of the registry's mappings `name -> Probe`
(section 3), a finite map with unique names; the registry type of the handler
package is missing from the source. -/
abbrev ProbeMap := AList (fun _ : String => Check)

/-- Modelled from the spec: the registry of section 3, "two independent
mappings"; the handler type of the handler package is missing from the source. -/
structure Registry where
  liveness : ProbeMap
  readiness : ProbeMap

/-- Modelled from the spec: the empty registry a fresh handler starts from;
the body of `healthcheck.NewHandler` is missing from the source. -/
def NewHandler : Registry :=
  { liveness := ∅, readiness := ∅ }

/-- Modelled from the spec: `registerLiveness(name, check)` of section 4.1,
"inserts or replaces the probe under that name"; the body of
`AddLivenessCheck` is missing from the source. -/
def AddLivenessCheck (h : Registry) (name : String) (check : Check) : Registry :=
  { h with liveness := h.liveness.insert name check }

/-- Modelled from the spec: `registerReadiness(name, check)` of section 4.1,
"inserts or replaces the probe under that name"; the body of
`AddReadinessCheck` is missing from the source. -/
def AddReadinessCheck (h : Registry) (name : String) (check : Check) : Registry :=
  { h with readiness := h.readiness.insert name check }

/-- Registration under a kind given as a value. -/
def register (h : Registry) (kind : Kind) (name : String) (check : Check) : Registry :=
  match kind with
  | Kind.Liveness => AddLivenessCheck h name check
  | Kind.Readiness => AddReadinessCheck h name check

/-- Modelled from the spec: `listProbes(kind)` of section 4.1, "returns all
probes of the requested kind"; it is missing from the source. -/
def listProbes (h : Registry) (kind : Kind) : ProbeMap :=
  match kind with
  | Kind.Liveness => h.liveness
  | Kind.Readiness => h.readiness

/-- Modelled from the spec: `EvaluationResult` of section 3,
`{ overallOK: bool, perProbe: mapping name -> Result<(), ErrorMessage> }`,
where `none` is the success result; it is missing from the source. -/
structure EvaluationResult where
  overallOK : Bool
  perProbe : AList (fun _ : String => Option String)

/-- Modelled from the spec: one iteration of the algorithm of section 4.2,
"execute each probe's check; on success, record no error for that name; on
failure, record the probe's error message and mark `overallOK = false`"; the
evaluator is missing from the source. -/
def recordProbe (rt : Runtime) (acc : EvaluationResult) (p : (_ : String) × Check) :
    EvaluationResult :=
  match p.2 rt with
  | none => { acc with perProbe := acc.perProbe.insert p.1 none }
  | some msg => { overallOK := false, perProbe := acc.perProbe.insert p.1 (some msg) }

/-- Modelled from the spec: the loop of section 4.2 over the probes in the
order given, starting from a fresh result; the evaluator is missing from the
source. -/
def evaluateProbes (rt : Runtime) (probes : List ((_ : String) × Check)) : EvaluationResult :=
  probes.foldl (recordProbe rt) { overallOK := true, perProbe := ∅ }

/-- Modelled from the spec: `evaluate(kind)` of section 4.2, "iterate every
registered probe of the requested kind"; the evaluator is missing from the
source. -/
def evaluate (h : Registry) (kind : Kind) (rt : Runtime) : EvaluationResult :=
  evaluateProbes rt (listProbes h kind).entries

/-- Modelled from the spec: the goroutine-count probe of section 4.1, which
"fails when the number of concurrently running worker units exceeds a fixed
threshold" and "returns an error carrying the observed count".  The spec does
not give the wording around the count; the body of
`healthcheck.GoroutineCountCheck` is missing from the source. -/
def GoroutineCountCheck (threshold : Nat) : Check := fun rt =>
  if rt.NumGoroutine > threshold then
    some ("too many goroutines (" ++ Nat.repr rt.NumGoroutine ++ " > " ++ Nat.repr threshold ++ ")")
  else
    none

/-- Value of Go's `time.Millisecond`, in nanoseconds. -/
def Millisecond : Nat := 1000000

/-- Modelled from the spec: the DNS probe of section 4.1, which "fails when a
configured hostname cannot be resolved within a fixed timeout" and "returns an
error carrying the underlying resolution failure"; the body of
`healthcheck.DNSResolveCheck` is missing from the source. -/
def DNSResolveCheck (host : String) (timeout : Nat) : Check := fun rt =>
  rt.LookupHost host timeout

/-- Registry built by `main` before the health listener is started. -/
def mainHealth : Registry :=
  let health := NewHandler
  let health := AddLivenessCheck health "goroutine-threshold" (GoroutineCountCheck 100)
  let health := AddReadinessCheck health "upstream-dep-dns"
    (DNSResolveCheck "upstream.example.com" (50 * Millisecond))
  let health := AddLivenessCheck health "memory-allocation" memoryCheck
  health

/-- A runtime with the given heap reading and goroutine count, in which every
host name resolves. -/
def runtimeWith (alloc goroutines : Nat) : Runtime :=
  { Alloc := alloc, NumGoroutine := goroutines, LookupHost := fun _ _ => none }

/-- A check that always succeeds. -/
def passing : Check := fun _ => none

/-- A check that always fails with the given message. -/
def failing (msg : String) : Check := fun _ => some msg

/-- A registry whose only liveness probe fails with an empty message, as a Go
check returning `errors.New("")` does. -/
def silentRegistry : Registry :=
  AddLivenessCheck NewHandler "silent" (failing "")

/-- A registry with failing probes registered before and after a passing one. -/
def mixedRegistry : Registry :=
  let health := NewHandler
  let health := AddReadinessCheck health "cache" (failing "cache down")
  let health := AddReadinessCheck health "disk" passing
  let health := AddReadinessCheck health "queue" (failing "queue full")
  health

/-! ## `bToMb` -/

theorem bToMb_eq_div (b : Nat) : bToMb b = b / 1048576 := by
  unfold bToMb
  rw [Nat.div_div_eq_div_mul]

theorem bToMb_mono {a b : Nat} (h : a ≤ b) : bToMb a ≤ bToMb b := by
  rw [bToMb_eq_div, bToMb_eq_div]
  exact Nat.div_le_div_right h

theorem divUint64_of_lt {a b : Nat} (ha : a < uint64Size) (hb : b ≠ 0) :
    divUint64 a b = some (a / b) := by
  unfold divUint64
  rw [if_neg hb, Nat.mod_eq_of_lt (lt_of_le_of_lt (Nat.div_le_self a b) ha)]

/-- C10: for every `uint64` value `b`, executing `b / 1024 / 1024` on the
machine neither panics on a zero divisor nor wraps around and yields
`bToMb b`, which is the floor of `b / 2^20`: it is bracketed by
`bToMb b * 1048576 <= b < (bToMb b + 1) * 1048576`, is at most `b`, stays a
`uint64`, and `bToMb` is monotone non-decreasing. -/
theorem bToMb_floor_div (b b' : Nat) (hb : b < uint64Size) (hle : b ≤ b') :
    bToMbExec b = some (bToMb b) ∧
    bToMb b = b / 2 ^ 20 ∧
    bToMb b * 1048576 ≤ b ∧ b < (bToMb b + 1) * 1048576 ∧
    bToMb b ≤ b ∧ bToMb b < uint64Size ∧
    bToMb b ≤ bToMb b' := by
  have hq : b / 1024 < uint64Size := lt_of_le_of_lt (Nat.div_le_self b 1024) hb
  have hd : bToMb b = b / 1048576 := bToMb_eq_div b
  refine ⟨?_, ?_, ?_, ?_, ?_, ?_, bToMb_mono hle⟩
  · unfold bToMbExec
    rw [divUint64_of_lt hb (by decide)]
    show divUint64 (b / 1024) 1024 = some (bToMb b)
    rw [divUint64_of_lt hq (by decide)]
    rfl
  · rw [hd]
    norm_num
  · rw [hd]
    exact Nat.div_mul_le_self b 1048576
  · rw [hd]
    omega
  · rw [hd]
    exact Nat.div_le_self b 1048576
  · rw [hd]
    exact lt_of_le_of_lt (Nat.div_le_self b 1048576) hb

theorem bToMb_floor_div_witness :
    (210763775 : Nat) < uint64Size ∧ (210763775 : Nat) ≤ 210763776 ∧
    (bToMbExec 210763775 = some (bToMb 210763775) ∧
    bToMb 210763775 = 210763775 / 2 ^ 20 ∧
    bToMb 210763775 * 1048576 ≤ 210763775 ∧ 210763775 < (bToMb 210763775 + 1) * 1048576 ∧
    bToMb 210763775 ≤ 210763775 ∧ bToMb 210763775 < uint64Size ∧
    bToMb 210763775 ≤ bToMb 210763776) :=
  ⟨by decide, by decide, bToMb_floor_div 210763775 210763776 (by decide) (by decide)⟩

/-! ## The memory probe -/

theorem memoryCheck_eq_none_iff (rt : Runtime) :
    memoryCheck rt = none ↔ bToMb rt.Alloc ≤ 200 := by
  unfold memoryCheck
  by_cases h : bToMb rt.Alloc > 200
  · rw [if_pos h]
    constructor
    · intro hn
      cases hn
    · intro hle
      omega
  · rw [if_neg h]
    constructor
    · intro _
      omega
    · intro _
      rfl

theorem bToMb_gt_iff (a : Nat) : 200 < bToMb a ↔ 210763776 ≤ a := by
  rw [bToMb_eq_div]
  omega

/-- C3: for every heap reading, the check returned by `memoryCheck` returns an
error if and only if `bToMb` of the reading exceeds 200 and returns `nil`
otherwise; a reading of 50 MiB reports success. -/
theorem memoryCheck_error_iff_over_threshold (rt : Runtime) (goroutines : Nat)
    (resolver : String → Nat → Option String) :
    ((memoryCheck rt).isSome = true ↔ 200 < bToMb rt.Alloc) ∧
    (memoryCheck rt = none ↔ ¬ 200 < bToMb rt.Alloc) ∧
    memoryCheck { Alloc := 50 * 1048576, NumGoroutine := goroutines, LookupHost := resolver }
      = none := by
  have hn := memoryCheck_eq_none_iff rt
  refine ⟨?_, ?_, ?_⟩
  · rw [Option.isSome_iff_ne_none, Ne, hn]
    omega
  · rw [hn]
    omega
  · rw [memoryCheck_eq_none_iff]
    show bToMb (50 * 1048576) ≤ 200
    decide

/-- C4: whenever the memory probe fails, its message is exactly
"too large memory allocation (N)" with N the decimal rendering of `bToMb` of
the reading, the value compared with the threshold; so N exceeds 200 and the
message is not empty. -/
theorem memoryCheck_error_text (rt : Runtime) (msg : String) (h : memoryCheck rt = some msg) :
    msg = "too large memory allocation (" ++ Nat.repr (bToMb rt.Alloc) ++ ")" ∧
    200 < bToMb rt.Alloc ∧ msg ≠ "" := by
  unfold memoryCheck at h
  by_cases hgt : bToMb rt.Alloc > 200
  · rw [if_pos hgt] at h
    have hm : msg = memoryErrorText (bToMb rt.Alloc) := (Option.some.inj h).symm
    refine ⟨hm, hgt, ?_⟩
    intro he
    have hl : msg.length = 0 := by rw [he]; rfl
    rw [hm] at hl
    unfold memoryErrorText at hl
    rw [String.length_append, String.length_append] at hl
    have h29 : "too large memory allocation (".length = 29 := by decide
    omega
  · rw [if_neg hgt] at h
    cases h

theorem memoryCheck_error_text_witness :
    memoryCheck (runtimeWith (300 * 1048576 + 17) 1) = some "too large memory allocation (300)" ∧
    ("too large memory allocation (300)" =
        "too large memory allocation (" ++
          Nat.repr (bToMb (runtimeWith (300 * 1048576 + 17) 1).Alloc) ++ ")" ∧
      200 < bToMb (runtimeWith (300 * 1048576 + 17) 1).Alloc ∧
      "too large memory allocation (300)" ≠ "") :=
  ⟨by decide, memoryCheck_error_text (runtimeWith (300 * 1048576 + 17) 1) _ (by decide)⟩

/-- C9: the byte boundary of the memory probe is 201 MiB: the check returns an
error if and only if the reading is at least `201 * 1048576 = 210763776`
bytes; every reading above 200 MiB and below 201 MiB passes, such as
`200 * 1048576 + 1`; and a failing reading stays failing when it grows. -/
theorem memoryCheck_byte_boundary (rt rt' : Runtime) (hle : rt.Alloc ≤ rt'.Alloc)
    (goroutines : Nat) (resolver : String → Nat → Option String) :
    ((memoryCheck rt).isSome = true ↔ 201 * 1048576 ≤ rt.Alloc) ∧
    201 * 1048576 = 210763776 ∧
    (200 * 1048576 < rt.Alloc ∧ rt.Alloc < 201 * 1048576 → memoryCheck rt = none) ∧
    memoryCheck { Alloc := 200 * 1048576 + 1, NumGoroutine := goroutines, LookupHost := resolver }
      = none ∧
    ((memoryCheck rt).isSome = true → (memoryCheck rt').isSome = true) := by
  have key : ∀ r : Runtime, (memoryCheck r).isSome = true ↔ 210763776 ≤ r.Alloc := by
    intro r
    rw [Option.isSome_iff_ne_none, Ne, memoryCheck_eq_none_iff, ← bToMb_gt_iff]
    omega
  refine ⟨?_, by decide, ?_, ?_, ?_⟩
  · rw [key]
  · intro hb
    rw [memoryCheck_eq_none_iff]
    have := bToMb_gt_iff rt.Alloc
    omega
  · rw [memoryCheck_eq_none_iff]
    show bToMb (200 * 1048576 + 1) ≤ 200
    decide
  · rw [key, key]
    omega

theorem memoryCheck_byte_boundary_witness :
    (runtimeWith (200 * 1048576 + 1) 1).Alloc ≤ (runtimeWith (201 * 1048576) 1).Alloc ∧
    (((memoryCheck (runtimeWith (200 * 1048576 + 1) 1)).isSome = true ↔
        201 * 1048576 ≤ (runtimeWith (200 * 1048576 + 1) 1).Alloc) ∧
      201 * 1048576 = 210763776 ∧
      (200 * 1048576 < (runtimeWith (200 * 1048576 + 1) 1).Alloc ∧
          (runtimeWith (200 * 1048576 + 1) 1).Alloc < 201 * 1048576 →
        memoryCheck (runtimeWith (200 * 1048576 + 1) 1) = none) ∧
      memoryCheck { Alloc := 200 * 1048576 + 1, NumGoroutine := 1, LookupHost := fun _ _ => none }
        = none ∧
      ((memoryCheck (runtimeWith (200 * 1048576 + 1) 1)).isSome = true →
        (memoryCheck (runtimeWith (201 * 1048576) 1)).isSome = true)) :=
  ⟨by decide,
    memoryCheck_byte_boundary (runtimeWith (200 * 1048576 + 1) 1) (runtimeWith (201 * 1048576) 1)
      (by decide) 1 (fun _ _ => none)⟩

/-! ## The evaluation loop -/

theorem recordProbe_perProbe (rt : Runtime) (acc : EvaluationResult) (p : (_ : String) × Check) :
    (recordProbe rt acc p).perProbe = acc.perProbe.insert p.1 (p.2 rt) := by
  unfold recordProbe
  cases h : p.2 rt <;> rfl

theorem recordProbe_overallOK (rt : Runtime) (acc : EvaluationResult) (p : (_ : String) × Check) :
    (recordProbe rt acc p).overallOK = (acc.overallOK && (p.2 rt).isNone) := by
  unfold recordProbe
  cases h : p.2 rt <;> simp

theorem foldl_recordProbe_overallOK (rt : Runtime) (ps : List ((_ : String) × Check))
    (acc : EvaluationResult) :
    (ps.foldl (recordProbe rt) acc).overallOK
      = (acc.overallOK && ps.all fun p => (p.2 rt).isNone) := by
  induction ps generalizing acc with
  | nil => simp
  | cons p ps ih =>
    rw [List.foldl_cons, ih, recordProbe_overallOK, List.all_cons, Bool.and_assoc]

theorem foldl_recordProbe_lookup_of_not_mem (rt : Runtime) (n : String)
    (ps : List ((_ : String) × Check)) (acc : EvaluationResult) (hn : n ∉ ps.keys) :
    (ps.foldl (recordProbe rt) acc).perProbe.lookup n = acc.perProbe.lookup n := by
  induction ps generalizing acc with
  | nil => rfl
  | cons p ps ih =>
    rw [List.keys_cons, List.mem_cons, not_or] at hn
    rw [List.foldl_cons, ih _ hn.2, recordProbe_perProbe, AList.lookup_insert_ne hn.1]

theorem foldl_recordProbe_lookup_of_mem (rt : Runtime) (n : String) (c : Check)
    (ps : List ((_ : String) × Check)) (acc : EvaluationResult) (nd : ps.NodupKeys)
    (hm : Sigma.mk n c ∈ ps) :
    (ps.foldl (recordProbe rt) acc).perProbe.lookup n = some (c rt) := by
  induction ps generalizing acc with
  | nil => cases hm
  | cons p ps ih =>
    rw [List.nodupKeys_cons] at nd
    rw [List.foldl_cons]
    rcases List.mem_cons.1 hm with h | h
    · subst h
      rw [foldl_recordProbe_lookup_of_not_mem rt _ ps _ nd.1, recordProbe_perProbe,
        AList.lookup_insert]
    · exact ih _ nd.2 h

theorem evaluateProbes_overallOK (rt : Runtime) (ps : List ((_ : String) × Check)) :
    (evaluateProbes rt ps).overallOK = ps.all fun p => (p.2 rt).isNone := by
  unfold evaluateProbes
  rw [foldl_recordProbe_overallOK, Bool.true_and]

theorem evaluateProbes_lookup_of_mem (rt : Runtime) (n : String) (c : Check)
    (ps : List ((_ : String) × Check)) (nd : ps.NodupKeys) (hm : Sigma.mk n c ∈ ps) :
    (evaluateProbes rt ps).perProbe.lookup n = some (c rt) :=
  foldl_recordProbe_lookup_of_mem rt n c ps _ nd hm

theorem evaluateProbes_lookup_of_not_mem (rt : Runtime) (n : String)
    (ps : List ((_ : String) × Check)) (hn : n ∉ ps.keys) :
    (evaluateProbes rt ps).perProbe.lookup n = none := by
  unfold evaluateProbes
  rw [foldl_recordProbe_lookup_of_not_mem rt n ps _ hn, AList.lookup_empty]

theorem evaluate_lookup_of_registered (h : Registry) (kind : Kind) (rt : Runtime) (n : String)
    (c : Check) (hreg : (listProbes h kind).lookup n = some c) :
    (evaluate h kind rt).perProbe.lookup n = some (c rt) :=
  evaluateProbes_lookup_of_mem rt n c _ (listProbes h kind).nodupKeys
    (AList.mem_lookup_iff.1 hreg)

theorem evaluate_overallOK_false_of_failure (h : Registry) (kind : Kind) (rt : Runtime)
    (n : String) (c : Check) (msg : String) (hreg : (listProbes h kind).lookup n = some c)
    (hfail : c rt = some msg) : (evaluate h kind rt).overallOK = false := by
  unfold evaluate
  rw [evaluateProbes_overallOK, List.all_eq_false]
  refine ⟨⟨n, c⟩, AList.mem_lookup_iff.1 hreg, ?_⟩
  simp [hfail]

/-! ## Failures are recorded, none aborts the evaluation -/

/-- C5, as stated, fails: a probe whose error has an empty message is recorded
verbatim, so the recorded message is empty. -/
theorem recorded_message_may_be_empty :
    (listProbes silentRegistry Kind.Liveness).lookup "silent" = some (failing "") ∧
    (evaluate silentRegistry Kind.Liveness (runtimeWith 0 1)).perProbe.lookup "silent"
      = some (some "") ∧
    ¬ ∀ (h : Registry) (kind : Kind) (rt : Runtime) (name : String) (check : Check)
        (msg : String),
        (listProbes h kind).lookup name = some check → check rt = some msg →
        (evaluate h kind rt).overallOK = false ∧
        ∃ recorded, (evaluate h kind rt).perProbe.lookup name = some (some recorded) ∧
          recorded = msg ∧ recorded ≠ "" := by
  refine ⟨by rfl, by decide, ?_⟩
  intro hall
  obtain ⟨_, recorded, hrec, _, hne⟩ :=
    hall silentRegistry Kind.Liveness (runtimeWith 0 1) "silent" (failing "") "" (by rfl) rfl
  have h0 : (evaluate silentRegistry Kind.Liveness (runtimeWith 0 1)).perProbe.lookup "silent"
      = some (some "") := by decide
  rw [h0] at hrec
  exact hne (Option.some.inj (Option.some.inj hrec)).symm

/-- C5, amended: when a registered probe of the kind fails, `overallOK` is
false and every failing probe's name is mapped to that probe's own message
verbatim, whatever its text; the evaluation is not aborted: every registered probe of the kind, also one that comes after a
failing probe, has its own outcome recorded. -/
theorem evaluate_records_every_probe (h : Registry) (kind : Kind) (rt : Runtime)
    (name : String) (check : Check) (msg : String)
    (hreg : (listProbes h kind).lookup name = some check) (hfail : check rt = some msg) :
    (evaluate h kind rt).overallOK = false ∧
    (∀ n c m, (listProbes h kind).lookup n = some c → c rt = some m →
      (evaluate h kind rt).perProbe.lookup n = some (some m)) ∧
    (∀ n c, (listProbes h kind).lookup n = some c →
      (evaluate h kind rt).perProbe.lookup n = some (c rt)) := by
  refine ⟨evaluate_overallOK_false_of_failure h kind rt name check msg hreg hfail, ?_, ?_⟩
  · intro n c m hn hm
    rw [evaluate_lookup_of_registered h kind rt n c hn, hm]
  · intro n c hn
    exact evaluate_lookup_of_registered h kind rt n c hn

theorem evaluate_records_every_probe_witness :
    (listProbes mixedRegistry Kind.Readiness).lookup "cache" = some (failing "cache down") ∧
    failing "cache down" (runtimeWith 0 1) = some "cache down" ∧
    (evaluate mixedRegistry Kind.Readiness (runtimeWith 0 1)).overallOK = false ∧
    (evaluate mixedRegistry Kind.Readiness (runtimeWith 0 1)).perProbe.lookup "queue"
      = some (some "queue full") ∧
    (evaluate mixedRegistry Kind.Readiness (runtimeWith 0 1)).perProbe.lookup "disk"
      = some none :=
  have hw := evaluate_records_every_probe mixedRegistry Kind.Readiness (runtimeWith 0 1)
    "cache" (failing "cache down") "cache down" (by rfl) rfl
  ⟨by rfl, rfl, hw.1, hw.2.1 "queue" (failing "queue full") "queue full" (by rfl) rfl,
    hw.2.2 "disk" passing (by rfl)⟩

/-! ## Registration is last-write-wins -/

theorem listProbes_register_same (h : Registry) (kind : Kind) (name : String) (c : Check) :
    listProbes (register h kind name c) kind = (listProbes h kind).insert name c := by
  cases kind <;> rfl

theorem listProbes_register_other (h : Registry) (kind kind' : Kind) (name : String) (c : Check)
    (hk : kind' ≠ kind) : listProbes (register h kind name c) kind' = listProbes h kind' := by
  cases kind <;> cases kind' <;> first | rfl | exact absurd rfl hk

theorem register_register (h : Registry) (kind : Kind) (name : String) (c1 c2 : Check) :
    register (register h kind name c1) kind name c2 = register h kind name c2 := by
  cases kind
  · show ({ liveness := (h.liveness.insert name c1).insert name c2,
            readiness := h.readiness } : Registry) = _
    rw [AList.insert_insert]
    rfl
  · show ({ liveness := h.liveness,
            readiness := (h.readiness.insert name c1).insert name c2 } : Registry) = _
    rw [AList.insert_insert]
    rfl

/-- C6: registering `c1` and then `c2` under one name of one kind leaves the
registry that registering `c2` alone gives, so every later evaluation of that
kind runs `c2` and is independent of `c1`; the name has exactly one entry;
every other probe of that kind and all probes of the other kind are unchanged. -/
theorem register_twice_last_write_wins (h : Registry) (kind : Kind) (name : String)
    (c1 c2 : Check) :
    register (register h kind name c1) kind name c2 = register h kind name c2 ∧
    (∀ rt, evaluate (register (register h kind name c1) kind name c2) kind rt
      = evaluate (register h kind name c2) kind rt) ∧
    (listProbes (register (register h kind name c1) kind name c2) kind).lookup name = some c2 ∧
    (∀ rt, (evaluate (register (register h kind name c1) kind name c2) kind rt).perProbe.lookup
      name = some (c2 rt)) ∧
    (listProbes (register (register h kind name c1) kind name c2) kind).keys.count name = 1 ∧
    (∀ n, n ≠ name →
      (listProbes (register (register h kind name c1) kind name c2) kind).lookup n
        = (listProbes h kind).lookup n) ∧
    (∀ kind', kind' ≠ kind →
      listProbes (register (register h kind name c1) kind name c2) kind'
        = listProbes h kind') := by
  have hrr := register_register h kind name c1 c2
  have hl : (listProbes (register h kind name c2) kind).lookup name = some c2 := by
    rw [listProbes_register_same, AList.lookup_insert]
  refine ⟨hrr, ?_, ?_, ?_, ?_, ?_, ?_⟩
  · intro rt
    rw [hrr]
  · rw [hrr]
    exact hl
  · intro rt
    rw [hrr]
    exact evaluate_lookup_of_registered _ kind rt name c2 hl
  · rw [hrr, listProbes_register_same]
    apply List.count_eq_one_of_mem (AList.keys_nodup _)
    rw [AList.keys_insert]
    exact List.mem_cons_self _ _
  · intro n hn
    rw [hrr, listProbes_register_same, AList.lookup_insert_ne hn]
  · intro kind' hk
    rw [hrr]
    exact listProbes_register_other h kind kind' name c2 hk

/-! ## The goroutine probe registered by `main` -/

theorem mainHealth_liveness_entries :
    (listProbes mainHealth Kind.Liveness).entries
      = [⟨"memory-allocation", memoryCheck⟩, ⟨"goroutine-threshold", GoroutineCountCheck 100⟩] := by
  rfl

theorem mainHealth_lookup_goroutine :
    (listProbes mainHealth Kind.Liveness).lookup "goroutine-threshold"
      = some (GoroutineCountCheck 100) := by
  rfl

theorem GoroutineCountCheck_isSome (threshold : Nat) (rt : Runtime) :
    (GoroutineCountCheck threshold rt).isSome = true ↔ threshold < rt.NumGoroutine := by
  unfold GoroutineCountCheck
  by_cases h : rt.NumGoroutine > threshold
  · simp [h]
  · simp [h]

theorem GoroutineCountCheck_150 (alloc : Nat) (resolver : String → Nat → Option String) :
    GoroutineCountCheck 100 { Alloc := alloc, NumGoroutine := 150, LookupHost := resolver }
      = some "too many goroutines (150 > 100)" := by
  have h : (if (150 : Nat) > 100 then
      some ("too many goroutines (" ++ Nat.repr 150 ++ " > " ++ Nat.repr 100 ++ ")")
    else (none : Option String)) = some "too many goroutines (150 > 100)" := by decide
  exact h

/-- C7: the liveness probe `main` registers as "goroutine-threshold" fails
exactly when the observed goroutine count exceeds 100, its message then
contains the decimal rendering of that count, and a liveness evaluation
records it; with a count of 150 the evaluation has `overallOK = false` and
maps "goroutine-threshold" to an error that mentions 150. -/
theorem goroutine_threshold_probe (rt : Runtime) (alloc : Nat)
    (resolver : String → Nat → Option String) :
    (listProbes mainHealth Kind.Liveness).lookup "goroutine-threshold"
      = some (GoroutineCountCheck 100) ∧
    ((GoroutineCountCheck 100 rt).isSome = true ↔ 100 < rt.NumGoroutine) ∧
    (∃ pre post, GoroutineCountCheck 100 rt =
      if 100 < rt.NumGoroutine then some (pre ++ Nat.repr rt.NumGoroutine ++ post) else none) ∧
    (evaluate mainHealth Kind.Liveness rt).perProbe.lookup "goroutine-threshold"
      = some (GoroutineCountCheck 100 rt) ∧
    ((evaluate mainHealth Kind.Liveness rt).overallOK = true ↔
      rt.NumGoroutine ≤ 100 ∧ memoryCheck rt = none) ∧
    (evaluate mainHealth Kind.Liveness
      { Alloc := alloc, NumGoroutine := 150, LookupHost := resolver }).overallOK = false ∧
    (∃ pre post, (evaluate mainHealth Kind.Liveness
      { Alloc := alloc, NumGoroutine := 150, LookupHost := resolver }).perProbe.lookup
        "goroutine-threshold" = some (some (pre ++ "150" ++ post))) := by
  refine ⟨mainHealth_lookup_goroutine, GoroutineCountCheck_isSome 100 rt, ?_, ?_, ?_, ?_, ?_⟩
  · refine ⟨"too many goroutines (", " > " ++ Nat.repr 100 ++ ")", ?_⟩
    unfold GoroutineCountCheck
    by_cases h : rt.NumGoroutine > 100
    · rw [if_pos h, if_pos h]
      simp only [String.append_assoc]
    · rw [if_neg h, if_neg h]
  · exact evaluate_lookup_of_registered _ _ rt _ _ mainHealth_lookup_goroutine
  · unfold evaluate
    rw [evaluateProbes_overallOK, mainHealth_liveness_entries]
    simp only [List.all_cons, List.all_nil, Bool.and_true, Bool.and_eq_true,
      Option.isNone_iff_eq_none]
    have hg := GoroutineCountCheck_isSome 100 rt
    rw [Option.isSome_iff_ne_none] at hg
    constructor
    · rintro ⟨hm, hc⟩
      refine ⟨?_, hm⟩
      by_contra hlt
      exact (hg.2 (by omega)) hc
    · rintro ⟨hle, hm⟩
      refine ⟨hm, ?_⟩
      by_contra hc
      have := hg.1 hc
      omega
  · exact evaluate_overallOK_false_of_failure _ _ _ "goroutine-threshold"
      (GoroutineCountCheck 100) "too many goroutines (150 > 100)" mainHealth_lookup_goroutine
      (GoroutineCountCheck_150 alloc resolver)
  · refine ⟨"too many goroutines (", " > 100)", ?_⟩
    rw [evaluate_lookup_of_registered _ _ _ _ _ mainHealth_lookup_goroutine,
      GoroutineCountCheck_150]
    decide

/-! ## Evaluation order -/

theorem evaluateProbes_lookup_perm (rt : Runtime) (ps qs : List ((_ : String) × Check))
    (nd : ps.NodupKeys) (hp : List.Perm ps qs) (n : String) :
    (evaluateProbes rt ps).perProbe.lookup n = (evaluateProbes rt qs).perProbe.lookup n := by
  have nd' : qs.NodupKeys := (List.perm_nodupKeys hp).1 nd
  by_cases hn : n ∈ ps.keys
  · obtain ⟨c, hc⟩ := List.mem_keys.1 hn
    rw [evaluateProbes_lookup_of_mem rt n c ps nd hc,
      evaluateProbes_lookup_of_mem rt n c qs nd' (hp.mem_iff.1 hc)]
  · have hn' : n ∉ qs.keys := by
      intro hq
      obtain ⟨c, hc⟩ := List.mem_keys.1 hq
      exact hn (List.mem_keys.2 ⟨c, hp.mem_iff.2 hc⟩)
    rw [evaluateProbes_lookup_of_not_mem rt n ps hn, evaluateProbes_lookup_of_not_mem rt n qs hn']

/-- C8: for probes with distinct names, whose checks are functions of the
runtime readings, evaluating any two orderings of them gives the same
`overallOK` and the same mapping from probe name to outcome. -/
theorem evaluateProbes_order_irrelevant (rt : Runtime) (ps qs : List ((_ : String) × Check))
    (nd : ps.NodupKeys) (hp : List.Perm ps qs) :
    (evaluateProbes rt ps).overallOK = (evaluateProbes rt qs).overallOK ∧
    (∀ n, (evaluateProbes rt ps).perProbe.lookup n = (evaluateProbes rt qs).perProbe.lookup n) ∧
    AList.toFinmap (evaluateProbes rt ps).perProbe
      = AList.toFinmap (evaluateProbes rt qs).perProbe := by
  refine ⟨?_, evaluateProbes_lookup_perm rt ps qs nd hp, ?_⟩
  · rw [evaluateProbes_overallOK, evaluateProbes_overallOK, Bool.eq_iff_iff, List.all_eq_true,
      List.all_eq_true]
    constructor
    · intro hall p hpq
      exact hall p (hp.mem_iff.2 hpq)
    · intro hall p hpp
      exact hall p (hp.mem_iff.1 hpp)
  · apply Finmap.ext_lookup
    intro n
    rw [Finmap.lookup_toFinmap, Finmap.lookup_toFinmap]
    exact evaluateProbes_lookup_perm rt ps qs nd hp n

theorem evaluateProbes_order_irrelevant_witness :
    (mixedRegistry.readiness.entries).NodupKeys ∧
    List.Perm mixedRegistry.readiness.entries mixedRegistry.readiness.entries.reverse ∧
    (evaluateProbes (runtimeWith 0 1) mixedRegistry.readiness.entries).overallOK
      = (evaluateProbes (runtimeWith 0 1) mixedRegistry.readiness.entries.reverse).overallOK ∧
    (∀ n, (evaluateProbes (runtimeWith 0 1) mixedRegistry.readiness.entries).perProbe.lookup n
      = (evaluateProbes (runtimeWith 0 1)
          mixedRegistry.readiness.entries.reverse).perProbe.lookup n) ∧
    AList.toFinmap (evaluateProbes (runtimeWith 0 1) mixedRegistry.readiness.entries).perProbe
      = AList.toFinmap
          (evaluateProbes (runtimeWith 0 1) mixedRegistry.readiness.entries.reverse).perProbe :=
  ⟨mixedRegistry.readiness.nodupKeys, (List.reverse_perm _).symm,
    evaluateProbes_order_irrelevant (runtimeWith 0 1) mixedRegistry.readiness.entries
      mixedRegistry.readiness.entries.reverse mixedRegistry.readiness.nodupKeys
      (List.reverse_perm _).symm⟩

end HealthcheckDemo
